import Mathlib

/-!
Shallow embedding of the graphql-lambda subscription engine:
the SubscriptionManager (event-name to subscriber-list index), the
ApiGatewayConnectionManager (connection registry and transport send), and the
EventProcessor dispatch handler, translated from the TypeScript sources.
JavaScript Map objects are modelled as association lists with unique keys,
Map.get as the first matching entry, Map.set as replace-or-append; async
methods become pure state-passing functions, a thrown error becomes an
explicit error value, and the async iterator returned by subscribersByEvent
becomes a finite list of batches.
-/

set_option autoImplicit false

deriving instance DecidableEq for Except

namespace GraphqlLambda

/-- Per-connection data: endpoint, custom context (modelled as a string map),
and the initialization flag, as in the IConnection type. -/
structure IConnectionData where
  endpoint : String
  context : List (String × String)
  isInitialized : Bool
deriving DecidableEq, Repr

/-- A connection record, as in the IConnection type. -/
structure IConnection where
  id : String
  data : IConnectionData
deriving DecidableEq, Repr

/-- An operation request (query, variables, operation name), as in the
OperationRequest type; the payloads are modelled as strings. -/
structure OperationRequest where
  query : String
  variableValues : List (String × String)
  operationName : Option String
deriving DecidableEq, Repr

/-- A subscription entry, as in the ISubscriber type. -/
structure ISubscriber where
  connection : IConnection
  operation : OperationRequest
  event : String
  operationId : String
deriving DecidableEq, Repr

/-- An inbound subscription event, as in the ISubscriptionEvent type; the
payload is modelled as a string. -/
structure ISubscriptionEvent where
  event : String
  payload : String
deriving DecidableEq, Repr

/-- A JavaScript Map from event names to subscriber arrays, modelled as an
association list (keys unique by Map semantics). -/
abbrev SubStore := List (String × List ISubscriber)

/-- Map.get: the value of the first entry with the given key. -/
def storeGet (s : SubStore) (k : String) : Option (List ISubscriber) :=
  (s.find? (fun p => p.1 == k)).map Prod.snd

/-- Map.set: replace the value under an existing key, or append a new entry. -/
def storeSet (s : SubStore) (k : String) (v : List ISubscriber) : SubStore :=
  if s.any (fun p => p.1 == k) then
    s.map (fun p => if p.1 == k then (k, v) else p)
  else
    s ++ [(k, v)]

/-- State and configuration of the SubscriptionManager class: the
subscriptions Map together with the two injected name-derivation functions. -/
structure SubscriptionManager where
  subscriptions : SubStore
  getSubscriptionNameFromEvent : ISubscriptionEvent → String
  getSubscriptionNameFromConnection : String → IConnection → String

/-- A SubscriptionManager with the constructor defaults: empty storage,
getSubscriptionNameFromEvent = (event) => event.event and
getSubscriptionNameFromConnection = (name) => name. -/
def SubscriptionManager.default : SubscriptionManager :=
  { subscriptions := []
    getSubscriptionNameFromEvent := fun event => event.event
    getSubscriptionNameFromConnection := fun name _ => name }

namespace SubscriptionManager

/-- The subscribersByEvent method: computes the name via
getSubscriptionNameFromEvent, looks the list up (defaulting to []), filters it
by subscriber.event === name, and returns an async iterator over the
one-element array [subscribers], modelled as the one-batch list. -/
def subscribersByEvent (m : SubscriptionManager) (event : ISubscriptionEvent) :
    List (List ISubscriber) :=
  let name := m.getSubscriptionNameFromEvent event
  let subscriptions := (storeGet m.subscriptions name).getD []
  let subscribers := subscriptions.filter (fun subscriber => subscriber.event == name)
  [subscribers]

/-- One iteration of the forEach loop in the subscribe method: compute the
tenant-scoped key, then insert the subscription when the key is new, append it
when no existing subscriber under the key has the same connection id, and
otherwise leave the map unchanged. -/
def subscribeOne (m : SubscriptionManager) (n : String) (connection : IConnection)
    (operation : OperationRequest) (operationId : String) : SubscriptionManager :=
  let name := m.getSubscriptionNameFromConnection n connection
  let subscription : ISubscriber :=
    { connection := connection, operation := operation, event := name,
      operationId := operationId }
  match storeGet m.subscriptions name with
  | none =>
      { m with subscriptions := storeSet m.subscriptions name [subscription] }
  | some subscriptions =>
      if (subscriptions.find? (fun s => s.connection.id == connection.id)).isSome then
        m
      else
        { m with subscriptions :=
            storeSet m.subscriptions name (subscriptions ++ [subscription]) }

/-- The subscribe method: names.forEach over subscribeOne. The TypeScript
signature passes operationId as a field of the operation argument; it is the
operationId parameter here. -/
def subscribe (m : SubscriptionManager) (names : List String)
    (connection : IConnection) (operation : OperationRequest)
    (operationId : String) : SubscriptionManager :=
  names.foldl (fun acc n => subscribeOne acc n connection operation operationId) m

/-- The unsubscribe method: under the key subscriber.event, keep only entries
whose connection id differs from subscriber.connection.id. -/
def unsubscribe (m : SubscriptionManager) (subscriber : ISubscriber) :
    SubscriptionManager :=
  match storeGet m.subscriptions subscriber.event with
  | none => m
  | some subscriptions =>
      let kept :=
        subscriptions.filter
          (fun s => !(s.connection.id == subscriber.connection.id))
      { m with subscriptions := storeSet m.subscriptions subscriber.event kept }

/-- The unsubscribeOperation method: forEach over all Map entries, setting each
key to the subscribers filtered by
connection.id !== connectionId && operationId !== operationId.
Keys are unique in a Map, so the forEach plus set is a map over entries. -/
def unsubscribeOperation (m : SubscriptionManager) (connectionId : String)
    (operationId : String) : SubscriptionManager :=
  let updated :=
    m.subscriptions.map (fun p =>
      (p.1, p.2.filter (fun subscriber =>
        !(subscriber.connection.id == connectionId) &&
        !(subscriber.operationId == operationId))))
  { m with subscriptions := updated }

/-- The unsubscribeAllByConnectionId method: for each key of the Map, set the
key to the stored list filtered by s.connection.id === connectionId (the
filter as written in the source retains the matching entries). Keys are
unique in a Map, so the loop is a map over entries. -/
def unsubscribeAllByConnectionId (m : SubscriptionManager)
    (connectionId : String) : SubscriptionManager :=
  let updated :=
    m.subscriptions.map (fun p =>
      (p.1, p.2.filter (fun s => s.connection.id == connectionId)))
  { m with subscriptions := updated }

end SubscriptionManager

/-- The aws-sdk ApiGatewayManagementApi client, identified by the endpoint it
was constructed with. -/
structure ApiGatewayManagementApi where
  endpoint : String
deriving DecidableEq, Repr

/-- A JavaScript Map from connection ids to connection records, modelled as an
association list (keys unique by Map semantics). -/
abbrev ConnStore := List (String × IConnection)

/-- Map.get on the connections Map. -/
def connGet (s : ConnStore) (k : String) : Option IConnection :=
  (s.find? (fun p => p.1 == k)).map Prod.snd

/-- Map.set on the connections Map. -/
def connSet (s : ConnStore) (k : String) (v : IConnection) : ConnStore :=
  if s.any (fun p => p.1 == k) then
    s.map (fun p => if p.1 == k then (k, v) else p)
  else
    s ++ [(k, v)]

/-- State of the ApiGatewayConnectionManager class: the lazily created
ApiGatewayManagementApi client and the connections Map. -/
structure ApiGatewayConnectionManager where
  apiGatewayManager : Option ApiGatewayManagementApi
  connections : ConnStore
deriving DecidableEq, Repr

/-- Outcome of one postToConnection transport call: success, or a rejection
carrying an optional numeric statusCode. -/
inductive PostResult where
  | success
  | failure (statusCode : Option Nat)
deriving DecidableEq, Repr

/-- An error surfaced to the caller of sendToConnection: the re-thrown
transport rejection with its optional statusCode. -/
inductive SendError where
  | transport (statusCode : Option Nat)
deriving DecidableEq, Repr

/-- The error thrown by hydrateConnection when the id is unknown. -/
inductive HydrateError where
  | connectionNotFound (connectionId : String)
deriving DecidableEq, Repr

namespace ApiGatewayConnectionManager

/-- The private createApiGatewayManager method: return the cached client when
one exists, otherwise construct a client for the given endpoint and cache it.
Returns the client together with the updated state. -/
def createApiGatewayManager (m : ApiGatewayConnectionManager)
    (endpoint : String) :
    ApiGatewayManagementApi × ApiGatewayConnectionManager :=
  match m.apiGatewayManager with
  | some mgr => (mgr, m)
  | none =>
      let mgr : ApiGatewayManagementApi := { endpoint := endpoint }
      (mgr, { m with apiGatewayManager := some mgr })

/-- The hydrateConnection method: throw ConnectionNotFound when the id is
absent from the Map, otherwise return the stored record; the state is not
touched, which the returned pair makes explicit. -/
def hydrateConnection (m : ApiGatewayConnectionManager)
    (connectionId : String) :
    Except HydrateError (IConnection × ApiGatewayConnectionManager) :=
  match connGet m.connections connectionId with
  | none => Except.error (HydrateError.connectionNotFound connectionId)
  | some connection => Except.ok (connection, m)

/-- The hydrateOrRegisterConnection method: return the stored record, or
create and store an initialized one. -/
def hydrateOrRegisterConnection (m : ApiGatewayConnectionManager)
    (connectionId : String) (endpoint : String) :
    IConnection × ApiGatewayConnectionManager :=
  match connGet m.connections connectionId with
  | some connection => (connection, m)
  | none =>
      let connection : IConnection :=
        { id := connectionId,
          data := { endpoint := endpoint, context := [], isInitialized := true } }
      (connection, { m with connections := connSet m.connections connectionId connection })

/-- The unregisterConnection method: Map.delete of the connection id. -/
def unregisterConnection (m : ApiGatewayConnectionManager)
    (connection : IConnection) : ApiGatewayConnectionManager :=
  { m with connections := m.connections.filter (fun p => !(p.1 == connection.id)) }

/-- The sendToConnection method: create (or reuse) the client from the
connection endpoint, post the payload, and on rejection either swallow the
error and unregister the connection (statusCode 410) or re-throw it. The
transport is abstracted as the post argument mapping the client, the
connection id and the payload to a PostResult. Returns the optionally raised
error together with the state after the call (mutations performed before a
re-throw persist, as they do in the source). -/
def sendToConnection
    (post : ApiGatewayManagementApi → String → String → PostResult)
    (m : ApiGatewayConnectionManager) (connection : IConnection)
    (payload : String) :
    Option SendError × ApiGatewayConnectionManager :=
  let step := createApiGatewayManager m connection.data.endpoint
  match post step.1 connection.id payload with
  | PostResult.success => (none, step.2)
  | PostResult.failure statusCode =>
      if statusCode == some 410 then
        (none, unregisterConnection step.2 connection)
      else
        (some (SendError.transport statusCode), step.2)

end ApiGatewayConnectionManager

/-! ## EventProcessor

The dispatch handler produced by EventProcessor.createHandler iterates over
the batches of subscribersByEvent; each subscriber branch awaits
createGraphQLServerOptions, awaits execute, returns early when the execute
result is not an async iterable, awaits iterator.next, and sends a formatted
message when result.value is non-null; every branch promise is chained with
.catch(onError), and the handler awaits Promise.all of the caught promises.
The external collaborators of one branch (the GraphQL server options, the
execution engine and the transport send) are abstracted as a BranchEnv value
recording the outcome of each awaited step. -/

/-- Modelled from the spec: the protocol module defining SERVER_EVENT_TYPES is
not under src; the spec gives the DeliveryMessage type field as DATA, the
GQL data server event type. -/
def GQL_DATA : String := "data"

/-- Modelled from the spec: the formatMessage module is not under src; the
spec gives the wire envelope as the DeliveryMessage
operationId / payload / type record, which formatMessage serializes. The
envelope is kept as a record rather than its serialization. -/
structure DeliveryMessage where
  id : String
  payload : String
  type : String
deriving DecidableEq, Repr

/-- One sendToConnection call made by a dispatch branch: the target connection
id and the delivered envelope. -/
structure SentMessage where
  connectionId : String
  message : DeliveryMessage
deriving DecidableEq, Repr

/-- Outcome of awaiting execute and, when it yields an async iterable,
awaiting iterator.next on it: either the result is not an async iterable, or
next rejects, or next resolves with a nullable value. Execution results are
modelled as strings. -/
inductive ExecuteOutcome where
  | notIterable
  | iterable (next : Except String (Option String))
deriving DecidableEq, Repr

/-- The abstracted external collaborators of one subscriber branch: the
outcome of awaiting createGraphQLServerOptions, the outcome of awaiting
execute (with the subsequent iterator.next outcome), and the outcome of the
sendToConnection call should the branch reach it. -/
structure BranchEnv where
  createOptions : Except String Unit
  executeResult : Except String ExecuteOutcome
  sendOutcome : Except String Unit
deriving DecidableEq, Repr

namespace EventProcessor

/-- One subscriber branch of the handler, before the .catch(onError) wrapper:
the sendToConnection calls it performs, and the rejection reason when the
branch promise rejects. Follows the branch body in createHandler step by
step. -/
def branchBody (subscriber : ISubscriber) (env : BranchEnv) :
    List SentMessage × Option String :=
  match env.createOptions with
  | Except.error e => ([], some e)
  | Except.ok _ =>
      match env.executeResult with
      | Except.error e => ([], some e)
      | Except.ok ExecuteOutcome.notIterable => ([], none)
      | Except.ok (ExecuteOutcome.iterable next) =>
          match next with
          | Except.error e => ([], some e)
          | Except.ok none => ([], none)
          | Except.ok (some value) =>
              let message : DeliveryMessage :=
                { id := subscriber.operationId, payload := value,
                  type := GQL_DATA }
              let call : SentMessage :=
                { connectionId := subscriber.connection.id, message := message }
              match env.sendOutcome with
              | Except.ok _ => ([call], none)
              | Except.error e => ([call], some e)

/-- Aggregate observable outcome of one handler invocation: every
sendToConnection call in branch order, and the number of onError
invocations. -/
structure DispatchResult where
  sends : List SentMessage
  onErrorCalls : Nat
deriving DecidableEq, Repr

/-- One settled branch merged into the accumulated handler outcome: its sends
are appended and its rejection, routed to onError by the .catch wrapper,
counts as one onError call. -/
def branchStep (env : ISubscriber → BranchEnv) (acc : DispatchResult)
    (subscriber : ISubscriber) : DispatchResult :=
  let branch := branchBody subscriber (env subscriber)
  { sends := acc.sends ++ branch.1,
    onErrorCalls := acc.onErrorCalls + (if branch.2.isSome then 1 else 0) }

/-- The handler returned by createHandler: for each batch yielded by
subscribersByEvent, run every subscriber branch, route each rejection to
onError via the .catch wrapper (one onError call per rejected branch), and
resolve once all branches settle. The env argument gives each subscriber its
abstracted collaborators. -/
def createHandler (m : SubscriptionManager) (event : ISubscriptionEvent)
    (env : ISubscriber → BranchEnv) : DispatchResult :=
  (m.subscribersByEvent event).foldl
    (fun acc batch => batch.foldl (branchStep env) acc)
    { sends := [], onErrorCalls := 0 }

end EventProcessor

/-! ## Invariants and spec-side classifications -/

/-- All subscribers in the list have pairwise distinct connection ids. -/
def distinctConnIds (l : List ISubscriber) : Prop :=
  l.Pairwise (fun a b => a.connection.id ≠ b.connection.id)

/-- The uniqueness invariant of the subscription index: under every stored
event key, at most one subscriber per connection id. -/
def wfUnique (m : SubscriptionManager) : Prop :=
  ∀ p ∈ m.subscriptions, distinctConnIds p.2

/-- Every subscriber stored under a key carries that key as its event field;
established by construction in subscribe, this is the well-formedness under
which the filter inside subscribersByEvent keeps everything. -/
def wfEvents (m : SubscriptionManager) : Prop :=
  ∀ p ∈ m.subscriptions, ∀ s ∈ p.2, s.event = p.1

/-- Number of stored subscribers with the given connection id under the given
event key. -/
def connCount (m : SubscriptionManager) (k : String) (cid : String) : Nat :=
  (((storeGet m.subscriptions k).getD []).filter
    (fun s => s.connection.id == cid)).length

/-- Classification of a branch environment as failing: the branch promise
rejects on an execution error, a filter error surfacing through the iterator,
or a send error, and is routed to onError by the catch wrapper. -/
def branchFails (env : BranchEnv) : Bool :=
  match env.createOptions with
  | Except.error _ => true
  | Except.ok _ =>
      match env.executeResult with
      | Except.error _ => true
      | Except.ok ExecuteOutcome.notIterable => false
      | Except.ok (ExecuteOutcome.iterable next) =>
          match next with
          | Except.error _ => true
          | Except.ok none => false
          | Except.ok (some _) =>
              match env.sendOutcome with
              | Except.ok _ => false
              | Except.error _ => true

/-- The non-null execution result the branch environment yields, when its
execution succeeds, is an async iterable, and iterator.next resolves with a
non-null value. -/
def branchYields (env : BranchEnv) : Option String :=
  match env.createOptions, env.executeResult with
  | Except.ok _, Except.ok (ExecuteOutcome.iterable (Except.ok r)) => r
  | _, _ => none

/-! ## Concrete fixtures for evaluations -/

/-- A connection with id c1. -/
def connA : IConnection :=
  { id := "c1", data := { endpoint := "ep1", context := [], isInitialized := true } }

/-- A connection with id c2. -/
def connB : IConnection :=
  { id := "c2", data := { endpoint := "ep2", context := [], isInitialized := true } }

/-- A sample operation request. -/
def opA : OperationRequest :=
  { query := "q1", variableValues := [], operationName := none }

/-- A second sample operation request. -/
def opB : OperationRequest :=
  { query := "q2", variableValues := [], operationName := none }

/-- A sample inbound event named e. -/
def evE : ISubscriptionEvent := { event := "e", payload := "p" }

/-- A manager holding one subscription: connection c1 on event e. -/
def mgrOne : SubscriptionManager :=
  SubscriptionManager.default.subscribe ["e"] connA opA "op1"

/-- A manager holding subscriptions of connections c1 and c2 on event e. -/
def mgrTwo : SubscriptionManager :=
  mgrOne.subscribe ["e"] connB opA "op2"

/-- A manager holding subscriptions (c1, op1) and (c2, op1) on event e and
(c1, op2) on event e2. -/
def mgrThree : SubscriptionManager :=
  ((SubscriptionManager.default.subscribe ["e"] connA opA "op1").subscribe
      ["e"] connB opA "op1").subscribe ["e2"] connA opB "op2"

/-- A branch environment whose execution yields the result r and whose send
then rejects. -/
def envValueSendFail : BranchEnv :=
  { createOptions := Except.ok (),
    executeResult := Except.ok (ExecuteOutcome.iterable (Except.ok (some "r"))),
    sendOutcome := Except.error "boom" }

/-- A branch environment whose execution yields the result r and whose send
succeeds. -/
def envValueOk : BranchEnv :=
  { createOptions := Except.ok (),
    executeResult := Except.ok (ExecuteOutcome.iterable (Except.ok (some "r"))),
    sendOutcome := Except.ok () }

/-- A branch environment whose iterator resolves with a null value. -/
def envNullResult : BranchEnv :=
  { createOptions := Except.ok (),
    executeResult := Except.ok (ExecuteOutcome.iterable (Except.ok none)),
    sendOutcome := Except.ok () }

/-- A sample subscriber, as stored by mgrOne. -/
def subEx : ISubscriber :=
  { connection := connA, operation := opA, event := "e", operationId := "op1" }

/-- A registry holding the single connection c1 and no cached client. -/
def cmOne : ApiGatewayConnectionManager :=
  { apiGatewayManager := none, connections := [("c1", connA)] }

/-- An empty registry with no cached client. -/
def cmEmpty : ApiGatewayConnectionManager :=
  { apiGatewayManager := none, connections := [] }

/-- A transport whose post always fails with statusCode 410. -/
def post410 : ApiGatewayManagementApi → String → String → PostResult :=
  fun _ _ _ => PostResult.failure (some 410)

/-- A transport whose post always succeeds. -/
def postOk : ApiGatewayManagementApi → String → String → PostResult :=
  fun _ _ _ => PostResult.success

/-! ## Store lemmas -/

theorem storeGet_storeSet_self (s : SubStore) (k : String)
    (v : List ISubscriber) : storeGet (storeSet s k v) k = some v := by
  unfold storeGet storeSet
  by_cases h : s.any (fun p => p.1 == k) = true
  · rw [if_pos h]
    induction s with
    | nil => simp at h
    | cons a t ih =>
        by_cases ha : (a.1 == k) = true
        · rw [List.map_cons, if_pos ha,
            List.find?_cons_of_pos (List.map (fun p => if p.1 == k then (k, v) else p) t)
              (by simp)]
          rfl
        · have ht : t.any (fun p => p.1 == k) = true := by
            rcases List.any_eq_true.mp h with ⟨x, hx, hpx⟩
            rcases List.mem_cons.mp hx with rfl | hxt
            · exact absurd hpx ha
            · exact List.any_eq_true.mpr ⟨x, hxt, hpx⟩
          rw [List.map_cons, if_neg ha,
            List.find?_cons_of_neg (List.map (fun p => if p.1 == k then (k, v) else p) t) ha]
          exact ih ht
  · rw [if_neg h]
    have hnone : s.find? (fun p => p.1 == k) = none := by
      rw [List.find?_eq_none]
      intro x hx hpx
      exact h (List.any_eq_true.mpr ⟨x, hx, hpx⟩)
    rw [List.find?_append, hnone]
    simp [List.find?]

theorem mem_storeSet {s : SubStore} {k : String} {v : List ISubscriber}
    {p : String × List ISubscriber} (hp : p ∈ storeSet s k v) :
    p = (k, v) ∨ p ∈ s := by
  unfold storeSet at hp
  by_cases h : s.any (fun q => q.1 == k) = true
  · rw [if_pos h] at hp
    rcases List.mem_map.mp hp with ⟨q, hq, hfq⟩
    by_cases hk : (q.1 == k) = true
    · left; rw [← hfq]; simp [hk]
    · right; rw [← hfq]; simpa [hk] using hq
  · rw [if_neg h] at hp
    rcases List.mem_append.mp hp with hin | hone
    · right; exact hin
    · left; simpa using hone

theorem storeGet_mem {s : SubStore} {k : String} {l : List ISubscriber}
    (h : storeGet s k = some l) : ∃ q ∈ s, q.1 = k ∧ q.2 = l := by
  unfold storeGet at h
  cases hf : s.find? (fun p => p.1 == k) with
  | none => rw [hf] at h; simp at h
  | some q =>
      rw [hf] at h
      simp at h
      have hk : q.1 = k := by simpa using List.find?_some hf
      exact ⟨q, List.mem_of_find?_eq_some hf, hk, h⟩

/-! ## The per-event uniqueness invariant -/

theorem length_filter_le_one_of_distinct (l : List ISubscriber) (cid : String)
    (h : distinctConnIds l) :
    (l.filter (fun s => s.connection.id == cid)).length ≤ 1 := by
  induction l with
  | nil => simp
  | cons a t ih =>
      rcases List.pairwise_cons.mp h with ⟨ha, ht⟩
      by_cases hm : (a.connection.id == cid) = true
      · have hcid : a.connection.id = cid := by simpa using hm
        have hnil : t.filter (fun s => s.connection.id == cid) = [] := by
          rw [List.filter_eq_nil_iff]
          intro b hb
          have : a.connection.id ≠ b.connection.id := ha b hb
          simp only [beq_iff_eq]
          rw [← hcid]
          exact fun hbc => this hbc.symm
        simp [List.filter_cons, hm, hnil]
      · simpa [List.filter_cons, hm] using ih ht

theorem wfUnique_subscribeOne (m : SubscriptionManager) (n : String)
    (connection : IConnection) (operation : OperationRequest)
    (operationId : String) (h : wfUnique m) :
    wfUnique (m.subscribeOne n connection operation operationId) := by
  unfold SubscriptionManager.subscribeOne
  dsimp only
  split
  · intro p hp
    rcases mem_storeSet hp with hpe | hpm
    · rw [hpe]; simp [distinctConnIds]
    · exact h p hpm
  next subscriptions hg =>
    split
    · exact h
    next hf =>
      intro p hp
      rcases mem_storeSet hp with hpe | hpm
      · rw [hpe]
        have hsub : distinctConnIds subscriptions := by
          rcases storeGet_mem hg with ⟨q, hq, hq1, hq2⟩
          rw [← hq2]; exact h q hq
        have hnone :
            subscriptions.find? (fun s => s.connection.id == connection.id) = none := by
          cases hc : subscriptions.find? (fun s => s.connection.id == connection.id) with
          | none => rfl
          | some x => rw [hc] at hf; simp at hf
        have hall : ∀ a ∈ subscriptions, a.connection.id ≠ connection.id := by
          intro a hain
          have := (List.find?_eq_none.mp hnone) a hain
          simpa using this
        unfold distinctConnIds
        rw [List.pairwise_append]
        refine ⟨hsub, by simp, ?_⟩
        intro a hain b hbin
        simp at hbin
        rw [hbin]
        exact hall a hain
      · exact h p hpm

theorem wfUnique_subscribe (names : List String) :
    ∀ (m : SubscriptionManager) (connection : IConnection)
      (operation : OperationRequest) (operationId : String), wfUnique m →
      wfUnique (m.subscribe names connection operation operationId) := by
  induction names with
  | nil =>
      intro m connection operation operationId h
      simpa [SubscriptionManager.subscribe] using h
  | cons n t ih =>
      intro m connection operation operationId h
      have h1 := wfUnique_subscribeOne m n connection operation operationId h
      simpa [SubscriptionManager.subscribe] using
        ih (m.subscribeOne n connection operation operationId) connection operation operationId h1

theorem length_filter_eq_one_of_distinct {l : List ISubscriber} {cid : String}
    (h : distinctConnIds l)
    (hx : ∃ x ∈ l, (x.connection.id == cid) = true) :
    (l.filter (fun s => s.connection.id == cid)).length = 1 := by
  rcases hx with ⟨x, hxl, hpx⟩
  have hle := length_filter_le_one_of_distinct l cid h
  have hmem : x ∈ l.filter (fun s => s.connection.id == cid) :=
    List.mem_filter.mpr ⟨hxl, hpx⟩
  have hpos : 0 < (l.filter (fun s => s.connection.id == cid)).length :=
    List.length_pos.mpr (List.ne_nil_of_mem hmem)
  omega

theorem subscribeOne_mem (m : SubscriptionManager) (n : String)
    (connection : IConnection) (operation : OperationRequest)
    (operationId : String) :
    ∃ x ∈ (storeGet (m.subscribeOne n connection operation operationId).subscriptions
        (m.getSubscriptionNameFromConnection n connection)).getD [],
      (x.connection.id == connection.id) = true := by
  unfold SubscriptionManager.subscribeOne
  dsimp only
  split
  next hg =>
    rw [storeGet_storeSet_self]
    exact ⟨{ connection := connection, operation := operation,
             event := m.getSubscriptionNameFromConnection n connection,
             operationId := operationId }, by simp, by simp⟩
  next subscriptions hg =>
    split
    next hf =>
      rcases List.find?_isSome.mp hf with ⟨x, hxl, hpx⟩
      exact ⟨x, by rw [hg]; simpa using hxl, hpx⟩
    next hf =>
      rw [storeGet_storeSet_self]
      exact ⟨{ connection := connection, operation := operation,
               event := m.getSubscriptionNameFromConnection n connection,
               operationId := operationId }, by simp, by simp⟩

theorem subscribeOne_noop (m : SubscriptionManager) (n : String)
    (connection : IConnection) (operation : OperationRequest)
    (operationId : String)
    (hx : ∃ x ∈ (storeGet m.subscriptions
        (m.getSubscriptionNameFromConnection n connection)).getD [],
      (x.connection.id == connection.id) = true) :
    m.subscribeOne n connection operation operationId = m := by
  unfold SubscriptionManager.subscribeOne
  dsimp only
  split
  next hg =>
    rw [hg] at hx
    simp at hx
  next subscriptions hg =>
    split
    · rfl
    next hf =>
      exfalso
      rw [hg] at hx
      apply hf
      rw [List.find?_isSome]
      simpa using hx

theorem connCount_subscribeOne (m : SubscriptionManager) (n : String)
    (connection : IConnection) (operation : OperationRequest)
    (operationId : String) (h : wfUnique m) :
    connCount (m.subscribeOne n connection operation operationId)
      (m.getSubscriptionNameFromConnection n connection) connection.id = 1 := by
  have h1 := wfUnique_subscribeOne m n connection operation operationId h
  rcases subscribeOne_mem m n connection operation operationId with ⟨x, hx, hpx⟩
  unfold connCount
  cases hg : storeGet (m.subscribeOne n connection operation operationId).subscriptions
      (m.getSubscriptionNameFromConnection n connection) with
  | none =>
      rw [hg] at hx
      simp at hx
  | some l =>
      rw [hg] at hx
      have hd : distinctConnIds l := by
        rcases storeGet_mem hg with ⟨q, hq, hq1, hq2⟩
        rw [← hq2]
        exact h1 q hq
      exact length_filter_eq_one_of_distinct hd ⟨x, by simpa using hx, hpx⟩

theorem subscribeOne_fns (m : SubscriptionManager) (n : String)
    (connection : IConnection) (operation : OperationRequest)
    (operationId : String) :
    (m.subscribeOne n connection operation operationId).getSubscriptionNameFromConnection
        = m.getSubscriptionNameFromConnection ∧
    (m.subscribeOne n connection operation operationId).getSubscriptionNameFromEvent
        = m.getSubscriptionNameFromEvent := by
  unfold SubscriptionManager.subscribeOne
  dsimp only
  split
  · exact ⟨rfl, rfl⟩
  · split
    · exact ⟨rfl, rfl⟩
    · exact ⟨rfl, rfl⟩

/-! ## Branch lemmas -/

theorem branchBody_rejects (subscriber : ISubscriber) (env : BranchEnv) :
    ((EventProcessor.branchBody subscriber env).2).isSome = branchFails env := by
  obtain ⟨co, er, so⟩ := env
  cases co with
  | error e => rfl
  | ok u =>
      cases er with
      | error e => rfl
      | ok eo =>
          cases eo with
          | notIterable => rfl
          | iterable nx =>
              cases nx with
              | error e => rfl
              | ok r =>
                  cases r with
                  | none => rfl
                  | some v =>
                      cases so with
                      | ok u2 => rfl
                      | error e => rfl

theorem branchBody_sends_length (subscriber : ISubscriber) (env : BranchEnv) :
    ((EventProcessor.branchBody subscriber env).1).length
        = if (branchYields env).isSome then 1 else 0 := by
  obtain ⟨co, er, so⟩ := env
  cases co with
  | error e => rfl
  | ok u =>
      cases er with
      | error e => rfl
      | ok eo =>
          cases eo with
          | notIterable => rfl
          | iterable nx =>
              cases nx with
              | error e => rfl
              | ok r =>
                  cases r with
                  | none => rfl
                  | some v =>
                      cases so with
                      | ok u2 => rfl
                      | error e => rfl

theorem foldl_branchStep_spec (env : ISubscriber → BranchEnv)
    (batch : List ISubscriber) :
    ∀ acc : EventProcessor.DispatchResult,
      (batch.foldl (EventProcessor.branchStep env) acc).onErrorCalls
          = acc.onErrorCalls
            + (batch.filter (fun s => branchFails (env s))).length
      ∧ (batch.foldl (EventProcessor.branchStep env) acc).sends.length
          = acc.sends.length
            + (batch.filter (fun s => (branchYields (env s)).isSome)).length := by
  induction batch with
  | nil => intro acc; simp
  | cons a t ih =>
      intro acc
      rw [List.foldl_cons]
      rcases ih (EventProcessor.branchStep env acc a) with ⟨h1, h2⟩
      constructor
      · rw [h1]
        simp only [EventProcessor.branchStep, branchBody_rejects, List.filter_cons]
        by_cases hf : branchFails (env a) = true
        · rw [if_pos hf, if_pos hf, List.length_cons]
          omega
        · rw [if_neg hf, if_neg hf]
          omega
      · rw [h2]
        simp only [EventProcessor.branchStep, List.length_append,
          branchBody_sends_length, List.filter_cons]
        by_cases hy : ((branchYields (env a)).isSome) = true
        · rw [if_pos hy, if_pos hy, List.length_cons]
          omega
        · rw [if_neg hy, if_neg hy]
          omega

/-! ## Registry lemmas -/

theorem connGet_unregister (m : ApiGatewayConnectionManager)
    (connection : IConnection) :
    connGet (m.unregisterConnection connection).connections connection.id
      = none := by
  unfold ApiGatewayConnectionManager.unregisterConnection connGet
  dsimp only
  have hnone : (m.connections.filter (fun p => !(p.1 == connection.id))).find?
      (fun p => p.1 == connection.id) = none := by
    rw [List.find?_eq_none]
    intro x hx
    have := (List.mem_filter.mp hx).2
    simpa using this
  rw [hnone]
  rfl

/-! ## Claim theorems -/

/-- C1 (code bug): evaluated on a manager holding subscribers of connections
c1 and c2 under event e, unsubscribeAllByConnectionId c1 leaves the c1
subscriber in the batch yielded by subscribersByEvent (and removes the c2
subscriber instead): the filter in the source keeps exactly the entries of
the given connection, the inversion of the stated requirement that zero
subscribers with that connection id remain. -/
theorem c1_unsubscribeAll_keeps_connection :
    (((mgrTwo.unsubscribeAllByConnectionId "c1").subscribersByEvent
        evE).flatten.filter (fun s => s.connection.id == "c1")).length = 1 ∧
    (((mgrTwo.unsubscribeAllByConnectionId "c1").subscribersByEvent
        evE).flatten.filter (fun s => s.connection.id == "c2")).length = 0 := by
  decide

/-- C2 (code bug): evaluated on a manager holding (c1, op1) and (c2, op1)
under event e and (c1, op2) under event e2, unsubscribeOperation c1 op1
empties both keys: the filter in the source removes every entry matching the
connection id or the operation id, not only the entries matching both, so
the (c2, op1) and (c1, op2) entries that the claim says remain are removed
as well. -/
theorem c2_unsubscribeOperation_removes_either :
    ((storeGet mgrThree.subscriptions "e").getD []).length = 2 ∧
    ((storeGet mgrThree.subscriptions "e2").getD []).length = 1 ∧
    storeGet (mgrThree.unsubscribeOperation "c1" "op1").subscriptions "e"
      = some [] ∧
    storeGet (mgrThree.unsubscribeOperation "c1" "op1").subscriptions "e2"
      = some [] := by
  decide

/-- C3 counterexample: one subscriber (N = 1) whose branch fails at the send
(M = 1): onError is invoked once, yet the handler performed one
sendToConnection call, not N minus M = 0 as the claim states. -/
theorem c3_counterexample :
    (EventProcessor.createHandler mgrOne evE
        (fun _ => envValueSendFail)).onErrorCalls = 1 ∧
    ((mgrOne.subscribersByEvent evE).flatten).length = 1 ∧
    ¬ ((EventProcessor.createHandler mgrOne evE
        (fun _ => envValueSendFail)).sends.length = 1 - 1) := by
  decide

/-- C3 (amended): for every event and per-subscriber branch environments, the
handler invokes onError exactly once per failing branch (execution, filter,
or send error) and performs exactly one sendToConnection call per branch
whose execution yields a non-null result — a branch failing at the send
still performs its send call, so the send-call count is the number of
result-yielding branches rather than N minus M; the handler itself is a
total function of the batch, settling every branch. -/
theorem c3_dispatch_counts (m : SubscriptionManager)
    (event : ISubscriptionEvent) (env : ISubscriber → BranchEnv) :
    (EventProcessor.createHandler m event env).onErrorCalls
        = ((m.subscribersByEvent event).flatten.filter
            (fun s => branchFails (env s))).length
    ∧ (EventProcessor.createHandler m event env).sends.length
        = ((m.subscribersByEvent event).flatten.filter
            (fun s => (branchYields (env s)).isSome)).length := by
  unfold EventProcessor.createHandler SubscriptionManager.subscribersByEvent
  dsimp only
  rw [List.foldl_cons, List.foldl_nil, List.flatten_cons, List.flatten_nil,
    List.append_nil]
  have h := foldl_branchStep_spec env
    (((storeGet m.subscriptions (m.getSubscriptionNameFromEvent event)).getD
        []).filter (fun s => s.event == m.getSubscriptionNameFromEvent event))
    { sends := [], onErrorCalls := 0 }
  exact ⟨by simpa using h.1, by simpa using h.2⟩

/-- C5: subscribe preserves the at-most-one-subscriber-per-connection-id
uniqueness invariant; subscribing the same connection to the same event name
twice from any well-formed state leaves exactly one subscriber entry for that
(event, connection) pair; and subscribe on an empty names list is a no-op
(the embedding is a total function, so no call throws). -/
theorem c5_subscribe_unique (m : SubscriptionManager) (names : List String)
    (n : String) (connection : IConnection) (op1 op2 : OperationRequest)
    (id1 id2 : String) (h : wfUnique m) :
    wfUnique (m.subscribe names connection op1 id1) ∧
    connCount ((m.subscribe [n] connection op1 id1).subscribe [n] connection
        op2 id2)
      (m.getSubscriptionNameFromConnection n connection) connection.id = 1 ∧
    m.subscribe [] connection op1 id1 = m := by
  refine ⟨wfUnique_subscribe names m connection op1 id1 h, ?_, rfl⟩
  have hone : ∀ (mm : SubscriptionManager) (op : OperationRequest)
      (oid : String),
      mm.subscribe [n] connection op oid = mm.subscribeOne n connection op oid :=
    fun _ _ _ => rfl
  rw [hone, hone]
  have hnoop : (m.subscribeOne n connection op1 id1).subscribeOne n connection
      op2 id2 = m.subscribeOne n connection op1 id1 := by
    apply subscribeOne_noop
    rw [(subscribeOne_fns m n connection op1 id1).1]
    exact subscribeOne_mem m n connection op1 id1
  rw [hnoop]
  exact connCount_subscribeOne m n connection op1 id1 h

/-- C5 witness: the two-subscribe scenario evaluated from the default empty
manager with connection c1 on event e. -/
theorem c5_subscribe_unique_witness :
    wfUnique (SubscriptionManager.default.subscribe ["e"] connA opA "op1") ∧
    connCount ((SubscriptionManager.default.subscribe ["e"] connA opA
        "op1").subscribe ["e"] connA opB "op2") "e" "c1" = 1 ∧
    SubscriptionManager.default.subscribe [] connA opA "op1"
      = SubscriptionManager.default :=
  c5_subscribe_unique SubscriptionManager.default ["e"] "e" connA opA opB
    "op1" "op2" (by intro p hp; exact absurd hp (List.not_mem_nil p))

/-- C4: when the transport post rejects with statusCode 410, sendToConnection
swallows the error (no error is returned to the caller) and the connection id
is absent from the registry afterward; when the post rejects with any other
statusCode, sendToConnection re-raises exactly that transport error and the
registry keeps its entries. -/
theorem c4_send_stale_or_rethrow
    (post : ApiGatewayManagementApi → String → String → PostResult)
    (m : ApiGatewayConnectionManager) (connection : IConnection)
    (payload : String) (code : Option Nat)
    (h : post (m.createApiGatewayManager connection.data.endpoint).1
        connection.id payload = PostResult.failure code) :
    (code = some 410 →
      (m.sendToConnection post connection payload).1 = none ∧
      connGet ((m.sendToConnection post connection payload).2).connections
        connection.id = none) ∧
    (code ≠ some 410 →
      m.sendToConnection post connection payload
        = (some (SendError.transport code),
           (m.createApiGatewayManager connection.data.endpoint).2)) := by
  unfold ApiGatewayConnectionManager.sendToConnection
  dsimp only
  rw [h]
  constructor
  · intro hc
    subst hc
    exact ⟨rfl, connGet_unregister
      (m.createApiGatewayManager connection.data.endpoint).2 connection⟩
  · intro hc
    have hc' : ¬((code == some 410) = true) := by
      simpa using hc
    dsimp only
    rw [if_neg hc']

/-- C4 witness: a post failing with statusCode 410 against a registry holding
connection c1: no error surfaces and c1 is gone from the registry. -/
theorem c4_send_stale_or_rethrow_witness :
    (cmOne.sendToConnection post410 connA "x").1 = none ∧
    connGet ((cmOne.sendToConnection post410 connA "x").2).connections "c1"
      = none :=
  (c4_send_stale_or_rethrow post410 cmOne connA "x" (some 410) rfl).1 rfl

/-- C6: hydrateConnection returns the ConnectionNotFound error exactly when no
record with the id is stored; when a record exists it returns that record
together with the unchanged registry state. -/
theorem c6_hydrateConnection_spec (m : ApiGatewayConnectionManager)
    (connectionId : String) :
    (m.hydrateConnection connectionId
        = Except.error (HydrateError.connectionNotFound connectionId)
      ↔ connGet m.connections connectionId = none) ∧
    (∀ c, connGet m.connections connectionId = some c →
      m.hydrateConnection connectionId = Except.ok (c, m)) := by
  unfold ApiGatewayConnectionManager.hydrateConnection
  cases hg : connGet m.connections connectionId with
  | none =>
      refine ⟨⟨fun _ => rfl, fun _ => rfl⟩, ?_⟩
      intro c hc
      cases hc
  | some c0 =>
      constructor
      · simp
      · intro c hc
        injection hc with hc1
        subst hc1
        rfl

/-- C6 witness: the registry holding c1 hydrates c1 to the stored record with
the state unchanged, and hydrating an unknown id yields ConnectionNotFound. -/
theorem c6_hydrateConnection_spec_witness :
    cmOne.hydrateConnection "c1" = Except.ok (connA, cmOne) ∧
    cmOne.hydrateConnection "zz"
      = Except.error (HydrateError.connectionNotFound "zz") :=
  ⟨(c6_hydrateConnection_spec cmOne "c1").2 connA rfl,
   (c6_hydrateConnection_spec cmOne "zz").1.mpr rfl⟩

/-- C7: under the event well-formedness invariant (every stored subscriber
carries its key as event, as subscribe constructs them), subscribersByEvent
is exactly the one-batch sequence holding the list stored under the
tenant-scoped key computed by getSubscriptionNameFromEvent, the empty list
when no entry exists; the sequence ends after that single batch. -/
theorem c7_subscribersByEvent_single_batch (m : SubscriptionManager)
    (event : ISubscriptionEvent) (h : wfEvents m) :
    m.subscribersByEvent event
      = [(storeGet m.subscriptions
          (m.getSubscriptionNameFromEvent event)).getD []] := by
  unfold SubscriptionManager.subscribersByEvent
  dsimp only
  cases hg : storeGet m.subscriptions (m.getSubscriptionNameFromEvent event) with
  | none => simp
  | some l =>
      simp only [Option.getD_some]
      rcases storeGet_mem hg with ⟨q, hq, hq1, hq2⟩
      have hall : ∀ a ∈ l, (a.event == m.getSubscriptionNameFromEvent event) = true := by
        intro a ha
        have : a.event = q.1 := h q hq a (by rw [hq2]; exact ha)
        rw [this, hq1]
        simp
      rw [List.filter_eq_self.mpr hall]

/-- C7 witness: the two-subscriber manager satisfies the invariant and its
subscribersByEvent for event e is the single stored batch. -/
theorem c7_subscribersByEvent_single_batch_witness :
    mgrTwo.subscribersByEvent evE
      = [(storeGet mgrTwo.subscriptions "e").getD []] :=
  c7_subscribersByEvent_single_batch mgrTwo evE
    (by unfold wfEvents; decide)

/-- C8: a subscriber branch performs a send exactly when its execution yields
a non-null result: with no result (null value, a rejection, or an execute
output that is not an async iterable) it sends nothing, and with result v it
sends exactly one message to the subscriber connection, the envelope carrying
the subscriber operationId as id, v as payload, and the DATA type. -/
theorem c8_branch_send_iff_result (subscriber : ISubscriber)
    (env : BranchEnv) :
    (branchYields env = none →
      (EventProcessor.branchBody subscriber env).1 = []) ∧
    (∀ v, branchYields env = some v →
      (EventProcessor.branchBody subscriber env).1
        = [{ connectionId := subscriber.connection.id,
             message := { id := subscriber.operationId, payload := v,
                          type := GQL_DATA } }]) := by
  obtain ⟨co, er, so⟩ := env
  cases co with
  | error e => exact ⟨fun _ => rfl, fun v hv => by cases hv⟩
  | ok u =>
      cases er with
      | error e => exact ⟨fun _ => rfl, fun v hv => by cases hv⟩
      | ok eo =>
          cases eo with
          | notIterable => exact ⟨fun _ => rfl, fun v hv => by cases hv⟩
          | iterable nx =>
              cases nx with
              | error e => exact ⟨fun _ => rfl, fun v hv => by cases hv⟩
              | ok r =>
                  cases r with
                  | none => exact ⟨fun _ => rfl, fun v hv => by cases hv⟩
                  | some w =>
                      constructor
                      · intro hn
                        cases hn
                      · intro v hv
                        have hw : w = v := by
                          unfold branchYields at hv
                          simpa using hv
                        subst hw
                        cases so with
                        | ok u2 => rfl
                        | error e => rfl

/-- C8 witness: the branch of the sample subscriber sends the DATA envelope
for a yielded result and sends nothing for a null result. -/
theorem c8_branch_send_iff_result_witness :
    (EventProcessor.branchBody subEx envValueOk).1
      = [{ connectionId := "c1",
           message := { id := "op1", payload := "r", type := GQL_DATA } }] ∧
    (EventProcessor.branchBody subEx envNullResult).1 = [] :=
  ⟨(c8_branch_send_iff_result subEx envValueOk).2 "r" rfl,
   (c8_branch_send_iff_result subEx envNullResult).1 rfl⟩

/-- C9: starting from a registry with no cached client, a first send through
connection c1 caches the client built from the c1 endpoint, and a subsequent
createApiGatewayManager for any other connection endpoint returns that same
cached client, ignoring its endpoint argument and leaving the state
unchanged: later sends post through the first endpoint client. -/
theorem c9_gateway_client_cached (m : ApiGatewayConnectionManager)
    (c1 c2 : IConnection) (payload : String)
    (post : ApiGatewayManagementApi → String → String → PostResult)
    (h : m.apiGatewayManager = none) :
    ((m.sendToConnection post c1 payload).2).apiGatewayManager
        = some { endpoint := c1.data.endpoint } ∧
    (((m.sendToConnection post c1 payload).2).createApiGatewayManager
        c2.data.endpoint).1 = { endpoint := c1.data.endpoint } ∧
    (((m.sendToConnection post c1 payload).2).createApiGatewayManager
        c2.data.endpoint).2 = (m.sendToConnection post c1 payload).2 := by
  have hmg : ((m.sendToConnection post c1 payload).2).apiGatewayManager
      = some { endpoint := c1.data.endpoint } := by
    unfold ApiGatewayConnectionManager.sendToConnection
      ApiGatewayConnectionManager.createApiGatewayManager
    rw [h]
    dsimp only
    cases post { endpoint := c1.data.endpoint } c1.id payload with
    | success => rfl
    | failure statusCode =>
        dsimp only
        by_cases hc : (statusCode == some 410) = true
        · rw [if_pos hc]
          rfl
        · rw [if_neg hc]
  refine ⟨hmg, ?_, ?_⟩ <;>
    · unfold ApiGatewayConnectionManager.createApiGatewayManager
      rw [hmg]

/-- C9 witness: from the empty registry, a successful send through c1
(endpoint ep1) caches the ep1 client, then a create for the c2 endpoint ep2
returns the ep1 client unchanged. -/
theorem c9_gateway_client_cached_witness :
    ((cmEmpty.sendToConnection postOk connA "x").2).apiGatewayManager
        = some { endpoint := "ep1" } ∧
    (((cmEmpty.sendToConnection postOk connA "x").2).createApiGatewayManager
        "ep2").1 = { endpoint := "ep1" } ∧
    (((cmEmpty.sendToConnection postOk connA "x").2).createApiGatewayManager
        "ep2").2 = (cmEmpty.sendToConnection postOk connA "x").2 :=
  c9_gateway_client_cached cmEmpty connA connB "x" postOk rfl

/-- C10: when the connection already holds a subscriber under the
tenant-scoped key for the name, a subsequent subscribe for the same name and
connection — whatever its operation and operationId — leaves the manager
unchanged: the existing subscriber entry is kept and the new operation and
operationId are recorded nowhere. -/
theorem c10_duplicate_subscribe_noop (m : SubscriptionManager) (n : String)
    (connection : IConnection) (operation : OperationRequest)
    (operationId : String)
    (h : ((storeGet m.subscriptions
        (m.getSubscriptionNameFromConnection n connection)).getD []).any
          (fun s => s.connection.id == connection.id) = true) :
    m.subscribe [n] connection operation operationId = m := by
  have hx := List.any_eq_true.mp h
  have hone : m.subscribe [n] connection operation operationId
      = m.subscribeOne n connection operation operationId := rfl
  rw [hone]
  exact subscribeOne_noop m n connection operation operationId hx

/-- C10 witness: resubscribing connection c1 to event e with a different
operation and operationId leaves the one-subscription manager unchanged. -/
theorem c10_duplicate_subscribe_noop_witness :
    mgrOne.subscribe ["e"] connA opB "op9" = mgrOne :=
  c10_duplicate_subscribe_noop mgrOne "e" connA opB "op9" (by decide)

end GraphqlLambda
